import Mathlib

set_option maxHeartbeats 1000000

namespace Tickertape

/-- Shallow embedding of the Python/JSON values that flow through the
scorecard pipeline (tickertape_api.py, Screener.py).  Numbers are modelled
as integers: the claims below only compare, sort and copy them. -/
inductive Json where
  | null : Json
  | bool : Bool → Json
  | num : Int → Json
  | str : String → Json
  | arr : List Json → Json
  | obj : List (String × Json) → Json
deriving Repr, Inhabited

mutual

/-- Structural equality on embedded values, modelling the Python equality
used by list membership tests. -/
def Json.beq : Json → Json → Bool
  | .null, .null => true
  | .bool a, .bool b => a == b
  | .num a, .num b => a == b
  | .str a, .str b => a == b
  | .arr a, .arr b => Json.beqList a b
  | .obj a, .obj b => Json.beqPairs a b
  | _, _ => false

/-- Elementwise equality of embedded lists. -/
def Json.beqList : List Json → List Json → Bool
  | [], [] => true
  | a :: as, b :: bs => Json.beq a b && Json.beqList as bs
  | _, _ => false

/-- Elementwise equality of embedded dicts. -/
def Json.beqPairs : List (String × Json) → List (String × Json) → Bool
  | [], [] => true
  | (k, a) :: as, (l, b) :: bs => k == l && Json.beq a b && Json.beqPairs as bs
  | _, _ => false

end

instance : BEq Json := ⟨Json.beq⟩

/-- Python truthiness (`if x:`) for embedded values. -/
def Json.truthy : Json → Bool
  | .null => false
  | .bool b => b
  | .num n => n != 0
  | .str s => !(s == "")
  | .arr [] => false
  | .arr (_ :: _) => true
  | .obj [] => false
  | .obj (_ :: _) => true

/-- Python substring test: the expression (k in s) for strings. -/
def strContainsSub (s pat : String) : Bool :=
  if pat == "" then true else decide ((s.splitOn pat).length ≥ 2)

/-- Python x.get(k, d): succeeds only on a dict (otherwise AttributeError,
modelled as none). -/
def Json.pyDictGet : Json → String → Json → Option Json
  | .obj kvs, k, d => some ((kvs.lookup k).getD d)
  | _, _, _ => none

/-- Python membership test (k in x) for a string k: key membership on a
dict, substring on a string, element membership on a list; a TypeError
(none) on the other shapes. -/
def pyContainsKey : Json → String → Option Bool
  | .obj kvs, k => some (kvs.any (fun kv => kv.1 == k))
  | .str s, k => some (strContainsSub s k)
  | .arr xs, k => some (xs.any (fun e => e == Json.str k))
  | _, _ => none

/-- Python subscript x[k] with a string key: only a dict holding the key
succeeds; anything else raises (none). -/
def pySubscript : Json → String → Option Json
  | .obj kvs, k => kvs.lookup k
  | _, _ => none

/-- Python iteration (for item in x): lists yield elements, strings yield
one-character strings, dicts yield their keys; other shapes raise a
TypeError (none). -/
def pyIter : Json → Option (List Json)
  | .arr xs => some xs
  | .str s => some (s.toList.map (fun c => Json.str (String.mk [c])))
  | .obj kvs => some (kvs.map (fun kv => Json.str kv.1))
  | _ => none

/-- Python dict assignment d[k] = v on an association list: update in
place when the key exists, append otherwise (insertion order kept). -/
def dictSet {γ : Type} (d : List (String × γ)) (k : String) (v : γ) :
    List (String × γ) :=
  if d.any (fun kv => kv.1 == k) then
    d.map (fun kv => if kv.1 == k then (k, v) else kv)
  else d ++ [(k, v)]

/-- The default summary dict of extract_scorecard_summary_csv
(tickertape_api.py lines 135-139); the string N/A is the spec's
"unknown" sentinel. -/
def defaultSummary : List (String × Json) :=
  [("Performance_Score", .str "N/A"), ("Valuation_Score", .str "N/A"),
   ("Growth_Score", .str "N/A"), ("Profitability_Score", .str "N/A"),
   ("Entry_Point_Score", .str "N/A"), ("Red_Flags_Score", .str "N/A")]

/-- The category_map of extract_scorecard_summary_csv
(tickertape_api.py lines 146-153). -/
def category_map : List (String × String) :=
  [("Performance", "Performance_Score"), ("Valuation", "Valuation_Score"),
   ("Growth", "Growth_Score"), ("Profitability", "Profitability_Score"),
   ("Entry point", "Entry_Point_Score"), ("Red flags", "Red_Flags_Score")]

/-- One iteration of the loop body of extract_scorecard_summary_csv
(tickertape_api.py lines 157-170); none models an exception raised by
this iteration (caught by the enclosing try in the source). -/
def csvProcessItem (summary : List (String × Json)) (item : Json) :
    Option (List (String × Json)) := do
  let name ← item.pyDictGet "name" (.str "")
  let score ← item.pyDictGet "score" (.obj [])
  let tag ← item.pyDictGet "tag" (.str "")
  match name with
  | .arr _ => none   -- unhashable key in (name in category_map): TypeError
  | .obj _ => none
  | .str s =>
    match category_map.lookup s with
    | some key =>
      let cond ← if score.truthy then pyContainsKey score "value" else pure false
      if cond then do
        let v ← pySubscript score "value"
        pure (dictSet summary key v)
      else if s == "Entry point" || s == "Red flags" then
        pure (dictSet summary key tag)
      else
        pure summary
    | none => pure summary
  | _ => pure summary

/-- The loop of extract_scorecard_summary_csv over the category items; an
error carries the summary built so far (the state the except handler
sees, since the source mutates summary in place). -/
def csvTryLoop (summary : List (String × Json)) :
    List Json → Except (List (String × Json)) (List (String × Json))
  | [] => .ok summary
  | item :: rest =>
    match csvProcessItem summary item with
    | some s => csvTryLoop s rest
    | none => .error summary

/-- Best-effort traversal: process items until the first one that raises,
keeping the summary built so far. -/
def csvBestEffort (summary : List (String × Json)) :
    List Json → List (String × Json)
  | [] => summary
  | item :: rest =>
    match csvProcessItem summary item with
    | some s => csvBestEffort s rest
    | none => summary

/-- extract_scorecard_summary_csv (tickertape_api.py lines 124-176).
The outer Except models an exception escaping to the caller: that can
only happen at the pre-try attribute access scorecard_data.get, when the
document is truthy but not a dict. -/
def extract_scorecard_summary_csv (scorecard_data : Option Json) :
    Except String (List (String × Json)) :=
  let summary := defaultSummary
  match scorecard_data with
  | none => .ok summary
  | some d =>
    if d.truthy then
      match d with
      | .obj kvs =>
        let data := (kvs.lookup "data").getD .null
        if data.truthy then
          match pyIter data with
          | some items =>
            match csvTryLoop summary items with
            | .ok s => .ok s
            | .error s => .ok s
          | none => .ok summary   -- TypeError at the for statement, caught
        else .ok summary
      | _ => .error "AttributeError"
    else .ok summary

/-- Outcome of one HTTP GET, the oracle the fetcher consults per stock id
(Screener.py lines 46-52): a response with a status and a body whose JSON
decoding may itself fail, or a transport-level exception. -/
inductive HttpResult where
  | response : Nat → Except String Json → HttpResult
  | netError : String → HttpResult
deriving Repr

/-- fetch_scorecard_async (Screener.py lines 34-61): returns the pair of
the stock id and the scorecard, none on a non-200 status or on any
exception (both are caught in the source and logged, never raised). -/
def fetch_scorecard_async (oracle : String → HttpResult) (sid : String) :
    String × Option Json :=
  match oracle sid with
  | .response status body =>
    if status == 200 then
      match body with
      | .ok doc => (sid, some doc)
      | .error _ => (sid, none)
    else (sid, none)
  | .netError _ => (sid, none)

/-- Python dict built from a list of pairs: later occurrences of a key
overwrite earlier ones in place. -/
def pyDictOf {γ : Type} (l : List (String × γ)) : List (String × γ) :=
  l.foldl (fun d kv => dictSet d kv.1 kv.2) []

/-- The fan-out/fan-in of process_stock_data_async (Screener.py lines
79-90): asyncio.gather waits for every per-id task, then the results are
keyed by id.  gather is modelled as the list of all settled per-id
results: each entry depends only on that id's own outcome. -/
def fetch_all (oracle : String → HttpResult) (sids : List String) :
    List (String × Option Json) :=
  pyDictOf (sids.map (fetch_scorecard_async oracle))

/-- One bulk screener result as the row-building loop reads it
(Screener.py lines 92-94): sid, the stock.info dict and the
stock.advancedRatios dict. -/
structure StockData where
  sid : String
  info : List (String × Json)
  advancedRatios : List (String × Json)
deriving Repr

/-- The scorecard actually seen for one screener result: the map lookup
scorecard_map.get(sid) (Screener.py line 97), where an id absent from the
map and an id mapped to None both yield Python None. -/
def effScorecard (scorecard_map : List (String × Option Json))
    (sd : StockData) : Option Json :=
  (scorecard_map.lookup sd.sid).join

/-- The summary dict the loop body feeds the row (Screener.py lines
99-104) together with the parse-error increment: the empty dict and one
error when the conditional call to the normalizer raises, the empty dict
and no error when the scorecard is absent or falsy, the normalizer output
otherwise. -/
def summaryAndErrs (scorecard_map : List (String × Option Json))
    (sd : StockData) : List (String × Json) × Nat :=
  match effScorecard scorecard_map sd with
  | some doc =>
    if doc.truthy then
      match extract_scorecard_summary_csv (some doc) with
      | .ok s => (s, 0)
      | .error _ => (([] : List (String × Json)), 1)
    else (([] : List (String × Json)), 0)
  | none => (([] : List (String × Json)), 0)

/-- The stock_entry dict literal (Screener.py lines 107-128). -/
def mkStockEntry (name ticker : Json) (sd : StockData)
    (scorecard_summary : List (String × Json)) : List (String × Json) :=
  let ratios := sd.advancedRatios
  [("Company Name", name),
     ("Ticker", ticker),
     ("Sector", (sd.info.lookup "sector").getD (.str "N/A")),
     ("Sub-Sector", (ratios.lookup "subindustry").getD (.str "N/A")),
     ("PE Ratio", (ratios.lookup "apef").getD (.num 0)),
     ("Last Price", (ratios.lookup "lastPrice").getD (.num 0)),
     ("Market Cap (Cr)", (ratios.lookup "mrktCapf").getD (.num 0)),
     ("MF Holding Change (6M)", (ratios.lookup "chMutHldng6M").getD (.num 0)),
     ("MF Holding Change (3M)", (ratios.lookup "instown3").getD (.num 0)),
     ("FII Holding Change (6M)", (ratios.lookup "forInstHldng6M").getD (.num 0)),
     ("FII Holding Change (3M)", (ratios.lookup "forInstHldng3M").getD (.num 0)),
     ("EBITDA", (ratios.lookup "incEbi").getD (.num 0)),
     ("1Y Return vs Nifty (%)", (ratios.lookup "12mpctN").getD (.num 0)),
     ("1Y Forward EBITDA Growth (%)", (ratios.lookup "estAvg").getD (.num 0)),
     ("Valuation Score", (scorecard_summary.lookup "Valuation_Score").getD (.str "N/A")),
     ("Performance Score", (scorecard_summary.lookup "Performance_Score").getD (.str "N/A")),
     ("Profitability Score", (scorecard_summary.lookup "Profitability_Score").getD (.str "N/A")),
     ("Growth Score", (scorecard_summary.lookup "Growth_Score").getD (.str "N/A")),
     ("Entry Point Score", (scorecard_summary.lookup "Entry_Point_Score").getD (.str "N/A")),
     ("Red Flags Score", (scorecard_summary.lookup "Red_Flags_Score").getD (.str "N/A"))]

/-- One iteration of the row-building loop (Screener.py lines 92-130):
builds the flat stock_entry dict and the number of parse errors this
iteration adds (0 or 1); none models an uncaught KeyError on
info[name] or info[ticker]. -/
def build_stock_entry (scorecard_map : List (String × Option Json))
    (sd : StockData) : Option (List (String × Json) × Nat) := do
  let name ← sd.info.lookup "name"
  let ticker ← sd.info.lookup "ticker"
  pure (mkStockEntry name ticker sd (summaryAndErrs scorecard_map sd).1,
    (summaryAndErrs scorecard_map sd).2)

/-- The row-building loop over all screener results, accumulating the
export rows in input order and the parse-error count. -/
def buildRows (scorecard_map : List (String × Option Json)) :
    List StockData → Option (List (List (String × Json)) × Nat)
  | [] => some ([], 0)
  | sd :: rest => do
    let (entry, e) ← build_stock_entry scorecard_map sd
    let (rows, es) ← buildRows scorecard_map rest
    pure (entry :: rows, e + es)

/-- process_stock_data_async (Screener.py lines 63-132): fetches every
scorecard concurrently, builds one row per screener result, and returns
the rows with the errors dict (scorecard_fetch_errors,
scorecard_parse_errors).  The fetch-error counter is initialized to 0 at
line 74 and never incremented anywhere in the source, so it is the
constant 0 here. -/
def process_stock_data (oracle : String → HttpResult)
    (results : List StockData) :
    Option (List (List (String × Json)) × Nat × Nat) := do
  let scorecard_map := fetch_all oracle (results.map (·.sid))
  let (export_data, parseErrs) ← buildRows scorecard_map results
  pure (export_data, 0, parseErrs)

/-- The four ranking columns of identify_top_holding_changes
(Screener.py lines 148-153). -/
inductive HoldCol where
  | mf6 : HoldCol
  | mf3 : HoldCol
  | fii6 : HoldCol
  | fii3 : HoldCol
deriving Repr, DecidableEq

/-- A flat row as the ranker sees it: the four numeric holding-change
columns, the remaining fields, and the Top 20 All Columns flag column. -/
structure HRow where
  mf6 : Int
  mf3 : Int
  fii6 : Int
  fii3 : Int
  fields : List (String × Json)
  top20all : String
deriving Repr

/-- Value of one ranking column on one row. -/
def colVal : HoldCol → HRow → Int
  | .mf6, r => r.mf6
  | .mf3, r => r.mf3
  | .fii6, r => r.fii6
  | .fii3, r => r.fii3

/-- holding_columns (Screener.py lines 148-153). -/
def holding_columns : List HoldCol := [.mf6, .mf3, .fii6, .fii3]

/-- df.nlargest(k, column) (Screener.py line 162): the first k rows of a
stable sort by that column, descending. -/
def nlargest (k : Nat) (val : HRow → Int) (rows : List HRow) : List HRow :=
  (rows.mergeSort (fun a b => decide (val b ≤ val a))).take k

/-- set(top_k[column].values) (Screener.py line 164): the distinct values
among the top-k rows of one column. -/
def topValSet (k : Nat) (val : HRow → Int) (rows : List HRow) : List Int :=
  ((nlargest k val rows).map val).dedup

/-- The per-row membership test of the flag lambda (Screener.py lines
176-181): the row's value for every listed column lies in that column's
top-value set. -/
def inTopAll (cols : List HoldCol) (k : Nat) (rows : List HRow)
    (r : HRow) : Bool :=
  cols.all (fun c => (topValSet k (colVal c) rows).contains (colVal c r))

/-- The flag-setting pass (Screener.py lines 175-183), generalized over
the column list and k exactly as the spec contract annotate_top_set. -/
def annotate_top_set (rows : List HRow) (cols : List HoldCol) (k : Nat) :
    List HRow :=
  rows.map (fun r =>
    { r with top20all := if inTopAll cols k rows r then "Yes" else "No" })

/-- identify_top_holding_changes (Screener.py lines 134-194): annotates
every row with the flag for the four holding columns with k = 20 and also
returns the per-column top-20 record lists. -/
def identify_top_holding_changes (rows : List HRow) :
    List HRow × List (HoldCol × List HRow) :=
  (annotate_top_set rows holding_columns 20,
   holding_columns.map (fun c => (c, nlargest 20 (colVal c) rows)))

/-- The item mentions category c: it is a dict whose name entry (with the
default of item.get) equals the string c.  Only such an item can write
the summary field mapped from c. -/
def itemNamed (c : String) : Json → Bool
  | .obj ikvs => ((ikvs.lookup "name").getD (.str "")) == Json.str c
  | _ => false

/-- The document contains an item for category c among the items the loop
of extract_scorecard_summary_csv iterates over. -/
def docMentions (d : Option Json) (c : String) : Bool :=
  match d with
  | some (.obj kvs) =>
    match pyIter ((kvs.lookup "data").getD .null) with
    | some items => items.any (itemNamed c)
    | none => false
  | _ => false

/-- A retrieval that fails in the sense of the spec: a transport error or
a non-200 status. -/
def fetchFailed : HttpResult → Bool
  | .netError _ => true
  | .response status _ => !(status == 200)

/-- The six scorecard columns of a flat export row (Screener.py lines
122-127). -/
def scoreFields : List String :=
  ["Valuation Score", "Performance Score", "Profitability Score",
   "Growth Score", "Entry Point Score", "Red Flags Score"]

/-- All six scorecard columns of a flat row hold the N/A sentinel. -/
def rowAllNA (row : List (String × Json)) : Bool :=
  scoreFields.all (fun k => (row.lookup k) == some (Json.str "N/A"))

/-- The screener result has no scorecard document in the map, or the
document is truthy and its normalization raises. -/
def noDocOrParseFail (scorecard_map : List (String × Option Json))
    (sd : StockData) : Bool :=
  match effScorecard scorecard_map sd with
  | none => true
  | some doc =>
    if doc.truthy then
      match extract_scorecard_summary_csv (some doc) with
      | .ok _ => false
      | .error _ => true
    else false

/-- Number of rows whose value in one column is strictly above v. -/
def countAbove (v : Int) (val : HRow → Int) (rows : List HRow) : Nat :=
  rows.countP (fun x => decide (v < val x))

/-- Everything of a flat row except the flag column. -/
def rowCore (r : HRow) : Int × Int × Int × Int × List (String × Json) :=
  (r.mf6, r.mf3, r.fii6, r.fii3, r.fields)

/-- Concrete document for the claim C1 counterexample: one Entry point
item with neither a score nor a tag. -/
def c1doc : Json :=
  .obj [("data", .arr [.obj [("name", .str "Entry point")]])]

/-- The summary the normalizer returns on c1doc: the Entry point field is
overwritten with the empty-string tag default, not left at N/A. -/
def c1out : List (String × Json) :=
  [("Performance_Score", .str "N/A"), ("Valuation_Score", .str "N/A"),
   ("Growth_Score", .str "N/A"), ("Profitability_Score", .str "N/A"),
   ("Entry_Point_Score", .str ""), ("Red_Flags_Score", .str "N/A")]

/-- Concrete item list for the claim C3 witness: a well-formed
Performance item followed by an item that makes the traversal raise. -/
def c3items : List Json :=
  [.obj [("name", .str "Performance"), ("score", .obj [("value", .num 7)])],
   .num 42]

/-- The dict entries of the C3 witness document. -/
def c3kvs : List (String × Json) := [("data", .arr c3items)]

/-- The best-effort summary at the point the C3 traversal raises. -/
def c3out : List (String × Json) :=
  [("Performance_Score", .num 7), ("Valuation_Score", .str "N/A"),
   ("Growth_Score", .str "N/A"), ("Profitability_Score", .str "N/A"),
   ("Entry_Point_Score", .str "N/A"), ("Red_Flags_Score", .str "N/A")]

/-- The per-id settled outcome of one retrieval: the second component of
what fetch_scorecard_async returns for that id. -/
def fetchOutcome (oracle : String → HttpResult) (sid : String) : Option Json :=
  (fetch_scorecard_async oracle sid).2

/-- Concrete ids for the claim C4 witness. -/
def c4sids : List String := ["a", "b"]

/-- Concrete oracle for the claim C4 witness: id b fails with a transport
error, id a succeeds. -/
def c4oracle : String → HttpResult := fun sid =>
  if sid == "b" then .netError "timeout"
  else .response 200 (.ok (Json.obj [("data", Json.arr [])]))

/-- Concrete scorecard map for the claim C6 witness: an entry for A, a
fetch-failure entry for B, and no entry for C. -/
def c6map : List (String × Option Json) :=
  [("A", some (Json.obj [("data", Json.arr [])])), ("B", none)]

/-- Concrete screener results for the claim C6 witness. -/
def c6results : List StockData :=
  [{ sid := "A", info := [("name", .str "Alpha"), ("ticker", .str "A")],
     advancedRatios := [] },
   { sid := "B", info := [("name", .str "Beta"), ("ticker", .str "B")],
     advancedRatios := [] },
   { sid := "C", info := [("name", .str "Gamma"), ("ticker", .str "C")],
     advancedRatios := [] }]

/-- Shorthand for a flat row with the four holding-change values. -/
def wrow (a b c d : Int) : HRow :=
  { mf6 := a, mf3 := b, fii6 := c, fii3 := d, fields := [], top20all := "" }

/-- Concrete rows for the claim C7 witness: a boundary tie at 9 in the
first column. -/
def c7rows : List HRow :=
  [wrow 10 0 0 0, wrow 9 0 0 0, wrow 9 0 0 0, wrow 8 0 0 0]

/-- Concrete rows for the claim C8 witness. -/
def c8rows : List HRow := [wrow 3 1 4 1, wrow 5 9 2 6]

/-- First concrete row for the claim C10 witness. -/
def c10rowA : HRow := wrow 1 2 3 4

/-- Second concrete row for the claim C10 witness. -/
def c10rowB : HRow := wrow 5 6 7 8

/-- The five stock ids of the spec scenario behind claim C5. -/
def c5sids : List String := ["S1", "S2", "S3", "S4", "S5"]

/-- Oracle for the claim C5 scenario: id S3 suffers a transport failure,
every other id succeeds with an empty scorecard document. -/
def c5oracle : String → HttpResult := fun sid =>
  if sid == "S3" then .netError "connection reset"
  else .response 200 (.ok (Json.obj [("data", Json.arr [])]))

/-- The five screener results of the claim C5 scenario. -/
def c5results : List StockData :=
  c5sids.map (fun s =>
    { sid := s, info := [("name", .str s), ("ticker", .str s)],
      advancedRatios := [] })

theorem lookup_mem {γ : Type} {l : List (String × γ)} {a : String} {b : γ}
    (h : l.lookup a = some b) : (a, b) ∈ l := by
  rcases List.lookup_eq_some_iff.mp h with ⟨l₁, l₂, rfl, -⟩
  simp

theorem lookup_map_setKey {γ : Type} {k k2 : String} (v : γ) (h : k ≠ k2) :
    ∀ d : List (String × γ),
      (d.map (fun kv => if kv.1 == k2 then (k2, v) else kv)).lookup k = d.lookup k
  | [] => by simp
  | (k1, v1) :: d => by
    simp only [List.map_cons]
    by_cases h1 : k1 = k2
    · subst h1
      rw [if_pos (by simp)]
      rw [List.lookup_cons, List.lookup_cons]
      cases hbk : (k == k1) with
      | true => exact absurd (by simpa using hbk) h
      | false => exact lookup_map_setKey v h d
    · rw [if_neg (by simpa using h1)]
      rw [List.lookup_cons, List.lookup_cons]
      cases hbk : (k == k1) with
      | true => rfl
      | false => exact lookup_map_setKey v h d

theorem dictSet_lookup_ne {γ : Type} (d : List (String × γ)) {k k2 : String}
    (v : γ) (h : k ≠ k2) : (dictSet d k2 v).lookup k = d.lookup k := by
  unfold dictSet
  split
  · exact lookup_map_setKey v h d
  · rw [List.lookup_append]
    have h2 : ([(k2, v)] : List (String × γ)).lookup k = none := by
      rw [List.lookup_cons]
      have hbk : (k == k2) = false := by simp [h]
      rw [hbk]
      rfl
    rw [h2]
    exact Option.or_none

theorem dictSet_keys {γ : Type} (d : List (String × γ)) (k : String) (v : γ)
    (h : k ∈ d.map Prod.fst) :
    (dictSet d k v).map Prod.fst = d.map Prod.fst := by
  unfold dictSet
  have hany : d.any (fun kv => kv.1 == k) = true := by
    simp only [List.any_eq_true]
    rcases List.mem_map.mp h with ⟨kv, hkv, hfst⟩
    exact ⟨kv, hkv, by simp [hfst]⟩
  rw [if_pos hany, List.map_map]
  apply List.map_congr_left
  intro kv _
  by_cases hk : kv.1 = k
  · simp [hk]
  · simp [hk]

theorem cat_key_mem {c k : String} (h : (c, k) ∈ category_map) :
    k ∈ defaultSummary.map Prod.fst := by
  fin_cases h <;> simp [defaultSummary]

theorem cat_val_inj {c k c2 k2 : String} (h : (c, k) ∈ category_map)
    (h2 : (c2, k2) ∈ category_map) (hne : c ≠ c2) : k ≠ k2 := by
  fin_cases h <;> fin_cases h2 <;> simp_all

theorem cat_default_lookup {c k : String} (h : (c, k) ∈ category_map) :
    defaultSummary.lookup k = some (Json.str "N/A") := by
  fin_cases h <;> rfl

theorem json_beq_str (a b : String) : (Json.str a == Json.str b) = (a == b) := rfl

theorem csvProcessItem_shape {s s2 : List (String × Json)} {item : Json}
    (h : csvProcessItem s item = some s2) :
    s2 = s ∨ ∃ nm key v, (nm, key) ∈ category_map ∧
      itemNamed nm item = true ∧ s2 = dictSet s key v := by
  cases item with
  | obj ikvs =>
    simp only [csvProcessItem, Json.pyDictGet, Option.bind_eq_bind,
      Option.some_bind] at h
    split at h
    · exact absurd h (by simp)
    · exact absurd h (by simp)
    · rename_i nm heq
      have hnamed : itemNamed nm (Json.obj ikvs) = true := by
        simp [itemNamed, heq, json_beq_str]
      split at h
      · rename_i key hkey
        have hmem := lookup_mem hkey
        split at h
        · rcases hpc : pyContainsKey ((ikvs.lookup "score").getD (Json.obj [])) "value"
            with _ | cond
          · rw [hpc] at h
            exact absurd h (by simp)
          · rw [hpc] at h
            simp only [Option.some_bind] at h
            cases cond with
            | true =>
              rw [if_pos rfl] at h
              rcases hv : pySubscript ((ikvs.lookup "score").getD (Json.obj [])) "value"
                with _ | v
              · rw [hv] at h
                exact absurd h (by simp)
              · rw [hv] at h
                simp only [Option.some_bind, Option.pure_def, Option.some.injEq] at h
                exact Or.inr ⟨nm, key, v, hmem, hnamed, h.symm⟩
            | false =>
              rw [if_neg (by simp)] at h
              split at h
              · simp only [Option.pure_def, Option.some.injEq] at h
                exact Or.inr ⟨nm, key, _, hmem, hnamed, h.symm⟩
              · simp only [Option.pure_def, Option.some.injEq] at h
                exact Or.inl h.symm
        · simp only [Option.pure_def, Option.some_bind] at h
          rw [if_neg (by simp)] at h
          split at h
          · simp only [Option.some.injEq] at h
            exact Or.inr ⟨nm, key, _, hmem, hnamed, h.symm⟩
          · simp only [Option.some.injEq] at h
            exact Or.inl h.symm
      · simp only [Option.pure_def, Option.some.injEq] at h
        exact Or.inl h.symm
    · simp only [Option.pure_def, Option.some.injEq] at h
      exact Or.inl h.symm
  | null => exact absurd h (by simp [csvProcessItem, Json.pyDictGet])
  | bool b => exact absurd h (by simp [csvProcessItem, Json.pyDictGet])
  | num n => exact absurd h (by simp [csvProcessItem, Json.pyDictGet])
  | str s3 => exact absurd h (by simp [csvProcessItem, Json.pyDictGet])
  | arr xs => exact absurd h (by simp [csvProcessItem, Json.pyDictGet])

theorem csvProcessItem_keys {s s2 : List (String × Json)} {item : Json}
    (hk : s.map Prod.fst = defaultSummary.map Prod.fst)
    (h : csvProcessItem s item = some s2) :
    s2.map Prod.fst = defaultSummary.map Prod.fst := by
  rcases csvProcessItem_shape h with rfl | ⟨nm, key, v, hmem, -, rfl⟩
  · exact hk
  · rw [dictSet_keys _ _ _ (by rw [hk]; exact cat_key_mem hmem)]
    exact hk

theorem csvProcessItem_notNamed {s s2 : List (String × Json)} {item : Json}
    {c k : String} (hck : (c, k) ∈ category_map)
    (hn : itemNamed c item = false)
    (h : csvProcessItem s item = some s2) :
    s2.lookup k = s.lookup k := by
  rcases csvProcessItem_shape h with rfl | ⟨nm, key, v, hmem, hnamed, rfl⟩
  · rfl
  · have hne : c ≠ nm := by
      intro hc
      subst hc
      rw [hn] at hnamed
      exact Bool.false_ne_true hnamed
    exact dictSet_lookup_ne s v (cat_val_inj hck hmem hne)

theorem csvBestEffort_keys (items : List Json) :
    ∀ s, s.map Prod.fst = defaultSummary.map Prod.fst →
      (csvBestEffort s items).map Prod.fst = defaultSummary.map Prod.fst := by
  induction items with
  | nil => exact fun s hk => hk
  | cons it rest ih =>
    intro s hk
    simp only [csvBestEffort]
    cases hpi : csvProcessItem s it with
    | none => exact hk
    | some s2 => exact ih s2 (csvProcessItem_keys hk hpi)

theorem csvBestEffort_lookup {c k : String} (hck : (c, k) ∈ category_map)
    (items : List Json) :
    ∀ s, (∀ it ∈ items, itemNamed c it = false) →
      (csvBestEffort s items).lookup k = s.lookup k := by
  induction items with
  | nil => exact fun s _ => rfl
  | cons it rest ih =>
    intro s hall
    simp only [csvBestEffort]
    cases hpi : csvProcessItem s it with
    | none => rfl
    | some s2 =>
      rw [ih s2 (fun x hx => hall x (List.mem_cons_of_mem _ hx))]
      exact csvProcessItem_notNamed hck (hall it (List.mem_cons_self _ _)) hpi

theorem csvTryLoop_recover (items : List Json) :
    ∀ s, (match csvTryLoop s items with | .ok t => t | .error t => t) =
      csvBestEffort s items := by
  induction items with
  | nil => exact fun s => rfl
  | cons it rest ih =>
    intro s
    simp only [csvTryLoop, csvBestEffort]
    cases hpi : csvProcessItem s it with
    | none => rfl
    | some s2 => exact ih s2

theorem csvTryLoop_ok_eq {items : List Json} {s t : List (String × Json)}
    (h : csvTryLoop s items = .ok t) : t = csvBestEffort s items := by
  have hr := csvTryLoop_recover items s
  rw [h] at hr
  exact hr

theorem csvTryLoop_error_eq {items : List Json} {s t : List (String × Json)}
    (h : csvTryLoop s items = .error t) : t = csvBestEffort s items := by
  have hr := csvTryLoop_recover items s
  rw [h] at hr
  exact hr

/-- Claim C1 is false as stated: on a document whose only item is an
Entry point category with no score and no tag, the normalizer does not
leave the Entry point summary value at the N/A sentinel; it overwrites it
with the empty-string tag default. -/
theorem claim1_counterexample :
    extract_scorecard_summary_csv (some c1doc) = .ok c1out ∧
    c1out.lookup "Entry_Point_Score" ≠ some (Json.str "N/A") := by
  refine ⟨rfl, ?_⟩
  intro hcontra
  have hl : c1out.lookup "Entry_Point_Score" = some (Json.str "") := rfl
  rw [hl] at hcontra
  injection hcontra with h1
  injection h1 with h2
  exact absurd h2 (by decide)

/-- Claim C1 (amended): a category item with no score key and no tag key
whose name is Performance, Valuation, Growth or Profitability leaves the
summary unchanged (contributes no value); an Entry point or Red flags
item with no score key and no tag key instead sets its summary field to
the empty-string tag default rather than leaving the N/A sentinel. -/
theorem claim1_amended (summary kvs : List (String × Json))
    (hscore : kvs.lookup "score" = none) (htag : kvs.lookup "tag" = none) :
    (∀ nm, nm ∈ (["Performance", "Valuation", "Growth",
        "Profitability"] : List String) →
      kvs.lookup "name" = some (Json.str nm) →
      csvProcessItem summary (Json.obj kvs) = some summary) ∧
    (∀ nm key, nm ∈ (["Entry point", "Red flags"] : List String) →
      (nm, key) ∈ category_map →
      kvs.lookup "name" = some (Json.str nm) →
      csvProcessItem summary (Json.obj kvs) =
        some (dictSet summary key (Json.str ""))) := by
  constructor
  · intro nm hnm hname
    fin_cases hnm <;>
      simp [csvProcessItem, Json.pyDictGet, hname, hscore, htag,
        category_map, Json.truthy, List.lookup_cons]
  · intro nm key hnm hkey hname
    have hnm2 : nm = "Entry point" ∨ nm = "Red flags" := by simpa using hnm
    rcases hnm2 with rfl | rfl
    · have hk2 : key = "Entry_Point_Score" := by simpa [category_map] using hkey
      subst hk2
      simp [csvProcessItem, Json.pyDictGet, hname, hscore, htag,
        category_map, Json.truthy, List.lookup_cons]
    · have hk2 : key = "Red_Flags_Score" := by simpa [category_map] using hkey
      subst hk2
      simp [csvProcessItem, Json.pyDictGet, hname, hscore, htag,
        category_map, Json.truthy, List.lookup_cons]

/-- Witness for the amended claim C1 at concrete inputs: a Performance
item with no score and no tag leaves the default summary unchanged, and a
Red flags item with no score and no tag writes the empty string. -/
theorem claim1_witness :
    csvProcessItem defaultSummary (Json.obj [("name", Json.str "Performance")]) =
      some defaultSummary ∧
    csvProcessItem defaultSummary (Json.obj [("name", Json.str "Red flags")]) =
      some (dictSet defaultSummary "Red_Flags_Score" (Json.str "")) := by
  constructor
  · exact (claim1_amended defaultSummary [("name", Json.str "Performance")]
      rfl rfl).1 "Performance" (by simp) rfl
  · exact (claim1_amended defaultSummary [("name", Json.str "Red flags")]
      rfl rfl).2 "Red flags" "Red_Flags_Score" (by simp)
      (by simp [category_map]) rfl

/-- Claim C2 is false as stated for arbitrary inputs: a truthy document
that is not a dict, such as a JSON array, makes the normalizer raise an
AttributeError at the pre-try scorecard_data.get access. -/
theorem claim2_counterexample :
    extract_scorecard_summary_csv (some (Json.arr [Json.num 1])) =
      .error "AttributeError" := rfl

theorem extract_items_eq (kvs : List (String × Json)) (items : List Json)
    (ht : (Json.obj kvs).truthy = true)
    (hdt : ((kvs.lookup "data").getD .null).truthy = true)
    (hit : pyIter ((kvs.lookup "data").getD .null) = some items) :
    extract_scorecard_summary_csv (some (Json.obj kvs)) =
      .ok (csvBestEffort defaultSummary items) := by
  simp only [extract_scorecard_summary_csv]
  rw [if_pos ht, if_pos hdt]
  simp only [hit]
  split
  · rename_i t hloop
    exact congrArg Except.ok (csvTryLoop_ok_eq hloop)
  · rename_i t hloop
    exact congrArg Except.ok (csvTryLoop_error_eq hloop)

/-- Claim C2 (amended): for every input that is absent (None) or a dict,
including the empty dict and dicts missing any subset of the six known
categories, the normalizer never raises, the returned summary has exactly
the six known keys in the fixed order, and every key whose category is
mentioned by no item of the document keeps the N/A sentinel. -/
theorem claim2_amended (d : Option Json)
    (hd : d = none ∨ ∃ kvs, d = some (Json.obj kvs)) :
    ∃ s, extract_scorecard_summary_csv d = .ok s ∧
      s.map Prod.fst = defaultSummary.map Prod.fst ∧
      ∀ c k, (c, k) ∈ category_map → docMentions d c = false →
        s.lookup k = some (Json.str "N/A") := by
  rcases hd with rfl | ⟨kvs, rfl⟩
  · exact ⟨defaultSummary, rfl, rfl, fun c k hck _ => cat_default_lookup hck⟩
  · by_cases ht : (Json.obj kvs).truthy = true
    case neg =>
      refine ⟨defaultSummary, ?_, rfl, fun c k hck _ => cat_default_lookup hck⟩
      simp only [extract_scorecard_summary_csv]
      rw [if_neg ht]
    case pos =>
      by_cases hdt : ((kvs.lookup "data").getD .null).truthy = true
      case neg =>
        refine ⟨defaultSummary, ?_, rfl, fun c k hck _ => cat_default_lookup hck⟩
        simp only [extract_scorecard_summary_csv]
        rw [if_pos ht, if_neg hdt]
      case pos =>
        cases hit : pyIter ((kvs.lookup "data").getD .null) with
        | none =>
          refine ⟨defaultSummary, ?_, rfl, fun c k hck _ => cat_default_lookup hck⟩
          simp only [extract_scorecard_summary_csv]
          rw [if_pos ht, if_pos hdt]
          simp only [hit]
        | some items =>
          refine ⟨csvBestEffort defaultSummary items,
            extract_items_eq kvs items ht hdt hit,
            csvBestEffort_keys items defaultSummary rfl, ?_⟩
          intro c k hck hdm
          simp only [docMentions, hit] at hdm
          have hall : ∀ it ∈ items, itemNamed c it = false := by
            intro it hit2
            simpa using (List.any_eq_false.mp hdm) it hit2
          rw [csvBestEffort_lookup hck items defaultSummary hall]
          exact cat_default_lookup hck

/-- Witness for the amended claim C2 at the concrete input None. -/
theorem claim2_witness :
    ∃ s, extract_scorecard_summary_csv none = .ok s ∧
      s.map Prod.fst = defaultSummary.map Prod.fst ∧
      ∀ c k, (c, k) ∈ category_map → docMentions none c = false →
        s.lookup k = some (Json.str "N/A") :=
  claim2_amended none (Or.inl rfl)

/-- Claim C3: for every dict document whose data entry is a list over
which the traversal raises partway through (csvTryLoop reports an error
state), the normalizer catches the exception and returns, as a normal
value, exactly the best-effort summary built up to the failure point on
top of the defaults; no error reaches the caller. -/
theorem claim3_traversal_caught (kvs : List (String × Json))
    (items : List Json) (serr : List (String × Json))
    (hdata : (kvs.lookup "data").getD .null = Json.arr items)
    (herr : csvTryLoop defaultSummary items = .error serr) :
    extract_scorecard_summary_csv (some (Json.obj kvs)) = .ok serr ∧
    serr = csvBestEffort defaultSummary items := by
  have hkvs : kvs ≠ [] := by
    intro hk
    subst hk
    exact Json.noConfusion hdata
  have hitems : items ≠ [] := by
    intro hi
    subst hi
    simp [csvTryLoop] at herr
  have ht : (Json.obj kvs).truthy = true := by
    cases kvs with
    | nil => exact absurd rfl hkvs
    | cons a l => rfl
  have hdt : (Json.arr items).truthy = true := by
    cases items with
    | nil => exact absurd rfl hitems
    | cons a l => rfl
  constructor
  · have h1 := extract_items_eq kvs items ht (by rw [hdata]; exact hdt)
      (by rw [hdata]; rfl)
    rw [h1, csvTryLoop_error_eq herr]
  · exact csvTryLoop_error_eq herr

/-- Witness for claim C3 at a concrete malformed document: a well-formed
Performance item (score 7) followed by a non-dict item that raises; the
result keeps the Performance score and the remaining defaults. -/
theorem claim3_witness :
    extract_scorecard_summary_csv (some (Json.obj c3kvs)) = .ok c3out ∧
    c3out = csvBestEffort defaultSummary c3items :=
  claim3_traversal_caught c3kvs c3items c3out rfl rfl

theorem fetch_eq (oracle : String → HttpResult) (sid : String) :
    fetch_scorecard_async oracle sid = (sid, fetchOutcome oracle sid) := by
  unfold fetchOutcome fetch_scorecard_async
  rcases oracle sid with ⟨st, body⟩ | msg
  · rcases body with doc | m <;> by_cases h : (st == 200) = true <;> simp [h]
  · rfl

theorem fetchOutcome_congr {oracle oracle2 : String → HttpResult}
    {sid : String} (h : oracle2 sid = oracle sid) :
    fetchOutcome oracle2 sid = fetchOutcome oracle sid := by
  unfold fetchOutcome fetch_scorecard_async
  rw [h]

theorem fetchFailed_none {oracle : String → HttpResult} {sid : String}
    (h : fetchFailed (oracle sid) = true) :
    fetchOutcome oracle sid = none := by
  unfold fetchOutcome fetch_scorecard_async
  rcases ho : oracle sid with ⟨st, body⟩ | msg
  · rw [ho] at h
    simp only [fetchFailed] at h
    have h200 : (st == 200) = false := by simpa using h
    simp [h200]
  · rfl

theorem foldl_insertPair_eq {γ : Type} :
    ∀ (l acc : List (String × γ)),
      (acc.map Prod.fst ++ l.map Prod.fst).Nodup →
      l.foldl (fun d kv => dictSet d kv.1 kv.2) acc = acc ++ l := by
  intro l
  induction l with
  | nil => intro acc _; simp
  | cons kv rest ih =>
    intro acc h
    obtain ⟨k, v⟩ := kv
    simp only [List.foldl_cons]
    have hk : k ∉ acc.map Prod.fst := by
      simp only [List.map_cons, List.nodup_append] at h
      exact fun hmem => h.2.2 hmem (List.mem_cons_self _ _)
    have hset : dictSet acc k v = acc ++ [(k, v)] := by
      unfold dictSet
      rw [if_neg]
      simp only [List.any_eq_true, not_exists]
      intro x
      intro hx
      rcases hx with ⟨hx1, hx2⟩
      exact hk (List.mem_map.mpr ⟨x, hx1, by simpa using hx2⟩)
    rw [hset, ih (acc ++ [(k, v)]) (by simpa [List.append_assoc] using h),
      List.append_assoc]
    rfl

theorem pyDictOf_nodup {γ : Type} (l : List (String × γ))
    (h : (l.map Prod.fst).Nodup) : pyDictOf l = l := by
  have h2 := foldl_insertPair_eq l [] (by simpa using h)
  simpa [pyDictOf] using h2

theorem lookup_map_fn {γ : Type} (f : String → γ) :
    ∀ (sids : List String) (sid : String), sid ∈ sids →
      (sids.map (fun s => (s, f s))).lookup sid = some (f sid) := by
  intro sids
  induction sids with
  | nil => intro sid h; simp at h
  | cons a rest ih =>
    intro sid h
    simp only [List.map_cons, List.lookup_cons]
    cases hbk : (sid == a) with
    | true =>
      have hsa : sid = a := by simpa using hbk
      subst hsa
      rfl
    | false =>
      have hsa : sid ≠ a := by simpa using hbk
      rcases List.mem_cons.mp h with h1 | h2
      · exact absurd h1 hsa
      · exact ih sid h2

theorem fetch_all_eq (oracle : String → HttpResult) (sids : List String)
    (hnd : sids.Nodup) :
    fetch_all oracle sids = sids.map (fun s => (s, fetchOutcome oracle s)) := by
  unfold fetch_all
  have hmap : sids.map (fetch_scorecard_async oracle) =
      sids.map (fun s => (s, fetchOutcome oracle s)) :=
    List.map_congr_left (fun s _ => fetch_eq oracle s)
  rw [hmap]
  apply pyDictOf_nodup
  have hcomp : (sids.map (fun s => (s, fetchOutcome oracle s))).map Prod.fst
      = sids := by
    rw [List.map_map]
    exact List.map_id sids
  rw [hcomp]
  exact hnd

/-- Claim C4: for every oracle and every set of distinct stock ids, the
concurrent fetch returns a map keyed by exactly the input ids (so it is
defined only once every per-id retrieval has settled), each failed
retrieval (transport error or non-200 status) is mapped to no-document
(none), and each id's entry depends only on that id's own outcome, so no
per-id failure can cancel or change a sibling's entry. -/
theorem claim4_fetch_barrier (oracle : String → HttpResult)
    (sids : List String) (hnd : sids.Nodup) :
    (fetch_all oracle sids).map Prod.fst = sids ∧
    (∀ sid ∈ sids, (fetch_all oracle sids).lookup sid =
      some (fetchOutcome oracle sid)) ∧
    (∀ sid ∈ sids, fetchFailed (oracle sid) = true →
      (fetch_all oracle sids).lookup sid = some none) ∧
    (∀ oracle2 : String → HttpResult, ∀ sid ∈ sids,
      oracle2 sid = oracle sid →
      (fetch_all oracle2 sids).lookup sid = (fetch_all oracle sids).lookup sid) := by
  have he := fetch_all_eq oracle sids hnd
  refine ⟨?_, ?_, ?_, ?_⟩
  · rw [he, List.map_map]
    exact List.map_id sids
  · intro sid hs
    rw [he]
    exact lookup_map_fn _ sids sid hs
  · intro sid hs hf
    rw [he, lookup_map_fn _ sids sid hs, fetchFailed_none hf]
  · intro oracle2 sid hs ho
    rw [he, fetch_all_eq oracle2 sids hnd,
      lookup_map_fn _ sids sid hs, lookup_map_fn _ sids sid hs,
      fetchOutcome_congr ho]

/-- Witness for claim C4 at a concrete oracle and id set: id b fails with
a transport error, id a succeeds. -/
theorem claim4_witness :
    (fetch_all c4oracle c4sids).map Prod.fst = c4sids ∧
    (∀ sid ∈ c4sids, (fetch_all c4oracle c4sids).lookup sid =
      some (fetchOutcome c4oracle sid)) ∧
    (∀ sid ∈ c4sids, fetchFailed (c4oracle sid) = true →
      (fetch_all c4oracle c4sids).lookup sid = some none) ∧
    (∀ oracle2 : String → HttpResult, ∀ sid ∈ c4sids,
      oracle2 sid = c4oracle sid →
      (fetch_all oracle2 c4sids).lookup sid =
        (fetch_all c4oracle c4sids).lookup sid) :=
  claim4_fetch_barrier c4oracle c4sids (by decide)

/-- Claim C5 is contradicted by the code: in the spec scenario of five
ids where id S3 alone fails with a transport error, the pipeline reports
a scorecard fetch-error count of 0, not 1 — the counter is initialized at
Screener.py line 74 and printed at line 215 but never incremented. -/
theorem claim5_fetch_counter_zero :
    fetchFailed (c5oracle "S3") = true ∧
    ∃ rows, process_stock_data c5oracle c5results = some (rows, 0, 0) :=
  ⟨rfl, ⟨_, rfl⟩⟩

theorem summaryAndErrs_noDoc {m : List (String × Option Json)}
    {sd : StockData} (h : noDocOrParseFail m sd = true) :
    (summaryAndErrs m sd).1 = [] := by
  unfold noDocOrParseFail at h
  unfold summaryAndErrs
  cases hsc : effScorecard m sd with
  | none => rfl
  | some doc =>
    simp only [hsc] at h ⊢
    by_cases hdt : doc.truthy = true
    · simp only [hdt, if_true] at h ⊢
      cases hex : extract_scorecard_summary_csv (some doc) with
      | ok s =>
        simp only [hex] at h
        exact Bool.noConfusion h
      | error s =>
        simp only [hex]
    · have hdf : doc.truthy = false := by simpa using hdt
      simp [hdf] at h

theorem rowAllNA_empty (nv tv : Json) (sd : StockData) :
    rowAllNA (mkStockEntry nv tv sd []) = true := rfl

/-- Claim C6: for every scorecard map and every list of well-formed
screener results (each carrying a name and a ticker), the row builder
succeeds and produces exactly one flat row per screener result, in input
order; and every result whose id has no document in the map, or whose
document's normalization raises, gets a row whose six scorecard columns
all hold the N/A sentinel. -/
theorem claim6_row_builder (m : List (String × Option Json))
    (results : List StockData)
    (hwf : ∀ sd ∈ results, ("name" ∈ sd.info.map Prod.fst) ∧
      ("ticker" ∈ sd.info.map Prod.fst)) :
    ∃ rows parseCnt, buildRows m results = some (rows, parseCnt) ∧
      rows.length = results.length ∧
      List.Forall₂ (fun sd row =>
        (∃ e, build_stock_entry m sd = some (row, e)) ∧
        (noDocOrParseFail m sd = true → rowAllNA row = true))
        results rows := by
  revert hwf
  induction results with
  | nil => exact fun _ => ⟨[], 0, rfl, rfl, List.Forall₂.nil⟩
  | cons sd rest ih =>
    intro hwf
    obtain ⟨hn, ht⟩ := hwf sd (List.mem_cons_self _ _)
    have hn2 : (sd.info.lookup "name").isSome := by
      rw [List.lookup_isSome_iff]
      rcases List.mem_map.mp hn with ⟨p, hp, hfst⟩
      exact ⟨p, hp, by simp [hfst]⟩
    have ht2 : (sd.info.lookup "ticker").isSome := by
      rw [List.lookup_isSome_iff]
      rcases List.mem_map.mp ht with ⟨p, hp, hfst⟩
      exact ⟨p, hp, by simp [hfst]⟩
    obtain ⟨nv, hnv⟩ := Option.isSome_iff_exists.mp hn2
    obtain ⟨tv, htv⟩ := Option.isSome_iff_exists.mp ht2
    have hbe : build_stock_entry m sd =
        some (mkStockEntry nv tv sd (summaryAndErrs m sd).1,
          (summaryAndErrs m sd).2) := by
      simp only [build_stock_entry, hnv, htv, Option.bind_eq_bind,
        Option.some_bind]
      rfl
    have hna : noDocOrParseFail m sd = true →
        rowAllNA (mkStockEntry nv tv sd (summaryAndErrs m sd).1) = true := by
      intro h
      rw [summaryAndErrs_noDoc h]
      exact rowAllNA_empty nv tv sd
    obtain ⟨rows, cnt, hbr, hlen, hfa⟩ :=
      ih (fun x hx => hwf x (List.mem_cons_of_mem _ hx))
    refine ⟨mkStockEntry nv tv sd (summaryAndErrs m sd).1 :: rows,
      (summaryAndErrs m sd).2 + cnt, ?_, by simp [hlen],
      List.Forall₂.cons ⟨⟨(summaryAndErrs m sd).2, hbe⟩, hna⟩ hfa⟩
    simp only [buildRows, hbe, hbr, Option.bind_eq_bind, Option.some_bind]
    rfl

/-- Witness for claim C6 at a concrete instance: three screener results,
a map with a document for A, a fetch failure (None) for B, and nothing
for C. -/
theorem claim6_witness :
    ∃ rows parseCnt, buildRows c6map c6results = some (rows, parseCnt) ∧
      rows.length = c6results.length ∧
      List.Forall₂ (fun sd row =>
        (∃ e, build_stock_entry c6map sd = some (row, e)) ∧
        (noDocOrParseFail c6map sd = true → rowAllNA row = true))
        c6results rows :=
  claim6_row_builder c6map c6results (by decide)

theorem take_mem_sorted :
    ∀ (L : List Int) (k : Nat) (v : Int), L.Pairwise (fun a b => b ≤ a) →
      (v ∈ L.take k ↔ v ∈ L ∧ L.countP (fun x => decide (v < x)) < k) := by
  intro L
  induction L with
  | nil => intro k v _; simp
  | cons a L ih =>
    intro k v hs
    obtain ⟨hall, hs2⟩ := List.pairwise_cons.mp hs
    cases k with
    | zero => simp
    | succ j =>
      simp only [List.take_succ_cons, List.mem_cons, List.countP_cons]
      by_cases hva : v = a
      · subst hva
        have hz : L.countP (fun x => decide (v < x)) = 0 :=
          List.countP_eq_zero.mpr (fun x hx => by
            have h2 := hall x hx
            simp only [decide_eq_true_eq]
            omega)
        simp [hz]
      · rcases lt_or_gt_of_ne hva with hlt | hgt
        · have hdec : decide (v < a) = true := by simpa using hlt
          constructor
          · rintro (h1 | h2)
            · exact absurd h1 hva
            · obtain ⟨hm, hc⟩ := (ih j v hs2).mp h2
              refine ⟨Or.inr hm, ?_⟩
              rw [hdec]
              simp only [if_true]
              omega
          · rintro ⟨h1, h2⟩
            rcases h1 with h1 | h1
            · exact absurd h1 hva
            · refine Or.inr ((ih j v hs2).mpr ⟨h1, ?_⟩)
              rw [hdec] at h2
              simp only [if_true] at h2
              omega
        · have hnin : v ∉ L := fun hv => by
            have h3 := hall v hv
            omega
          constructor
          · rintro (h1 | h2)
            · exact absurd h1 hva
            · exact absurd (List.mem_of_mem_take h2) hnin
          · rintro ⟨h1, -⟩
            rcases h1 with h1 | h1
            · exact absurd h1 hva
            · exact absurd h1 hnin

theorem countAbove_eq (v : Int) (val : HRow → Int) (rows : List HRow) :
    countAbove v val rows =
      (rows.map val).countP (fun x => decide (v < x)) := by
  unfold countAbove
  rw [List.countP_map]
  rfl

theorem topValSet_mem (k : Nat) (val : HRow → Int) (rows : List HRow)
    (v : Int) :
    v ∈ topValSet k val rows ↔
      v ∈ rows.map val ∧ countAbove v val rows < k := by
  unfold topValSet nlargest
  rw [List.mem_dedup, List.map_take]
  have hperm : List.Perm
      ((rows.mergeSort (fun a b => decide (val b ≤ val a))).map val)
      (rows.map val) := (List.mergeSort_perm rows _).map val
  have hsorted : ((rows.mergeSort (fun a b => decide (val b ≤ val a))).map
      val).Pairwise (fun a b => b ≤ a) := by
    have hp := @List.sorted_mergeSort HRow
      (fun a b : HRow => decide (val b ≤ val a))
      (fun a b c hab hbc => by
        simp only [decide_eq_true_eq] at hab hbc ⊢
        omega)
      (fun a b => by
        rcases le_total (val b) (val a) with h | h <;> simp [h])
      rows
    exact hp.map val (fun a b hab => by simpa using hab)
  rw [take_mem_sorted _ k v hsorted, hperm.mem_iff, hperm.countP_eq,
    countAbove_eq]

theorem topValSet_congr {k : Nat} {val : HRow → Int} {rows rows2 : List HRow}
    (h : List.Perm (rows.map val) (rows2.map val)) (v : Int) :
    v ∈ topValSet k val rows ↔ v ∈ topValSet k val rows2 := by
  rw [topValSet_mem, topValSet_mem, h.mem_iff, countAbove_eq, countAbove_eq,
    h.countP_eq]

theorem colVal_set (c : HoldCol) (r : HRow) (x : String) :
    colVal c { r with top20all := x } = colVal c r := by
  cases c <;> rfl

theorem map_colVal_annotate (rows : List HRow) (cols : List HoldCol)
    (k : Nat) (c : HoldCol) :
    (annotate_top_set rows cols k).map (colVal c) = rows.map (colVal c) := by
  unfold annotate_top_set
  rw [List.map_map]
  exact List.map_congr_left (fun r _ => colVal_set c r _)

theorem inTopAll_congr {rows rows2 : List HRow} {cols : List HoldCol}
    (h : ∀ c ∈ cols, List.Perm (rows.map (colVal c)) (rows2.map (colVal c)))
    (k : Nat) {r r2 : HRow}
    (hv : ∀ c ∈ cols, colVal c r = colVal c r2) :
    inTopAll cols k rows r = inTopAll cols k rows2 r2 := by
  unfold inTopAll
  rw [Bool.eq_iff_iff, List.all_eq_true, List.all_eq_true]
  constructor
  · intro hl c hc
    rw [List.elem_iff]
    rw [← topValSet_congr (h c hc) (colVal c r2), ← hv c hc]
    have h2 := hl c hc
    rwa [List.elem_iff] at h2
  · intro hl c hc
    rw [List.elem_iff]
    rw [hv c hc, topValSet_congr (h c hc) (colVal c r2)]
    have h2 := hl c hc
    rwa [List.elem_iff] at h2

theorem annotate_eq_map (rows : List HRow) (cols : List HoldCol) (k : Nat) :
    annotate_top_set rows cols k = rows.map (fun r =>
      { r with top20all :=
          if inTopAll cols k rows r then "Yes" else "No" }) := rfl

/-- Claim C7: the flag the ranker writes for the i-th row is Yes iff, for
every listed ranking column, the row's value belongs to that column's set
of distinct values among the top-k rows sorted descending; membership is
per-value — it holds iff fewer than k rows have a strictly greater value
in that column — so rows tied on every listed column get the same flag
even when the tie at the k-th place pushes the nominal count above k. -/
theorem claim7_top_value_set (rows : List HRow) (cols : List HoldCol)
    (k : Nat) (i : Nat) (r : HRow) (hr : rows.get? i = some r) :
    ((annotate_top_set rows cols k).get? i = some
      { r with top20all :=
          if inTopAll cols k rows r then "Yes" else "No" }) ∧
    (inTopAll cols k rows r = true ↔
      ∀ c ∈ cols, colVal c r ∈ topValSet k (colVal c) rows) ∧
    (∀ c ∈ cols, colVal c r ∈ topValSet k (colVal c) rows ↔
      countAbove (colVal c r) (colVal c) rows < k) ∧
    (∀ r2 ∈ rows, (∀ c ∈ cols, colVal c r2 = colVal c r) →
      inTopAll cols k rows r2 = inTopAll cols k rows r) := by
  have hmem : r ∈ rows := List.get?_mem hr
  refine ⟨?_, ?_, ?_, ?_⟩
  · rw [annotate_eq_map, List.get?_map, hr]
    rfl
  · unfold inTopAll
    rw [List.all_eq_true]
    constructor
    · intro h c hc
      have h2 := h c hc
      rwa [List.elem_iff] at h2
    · intro h c hc
      rw [List.elem_iff]
      exact h c hc
  · intro c hc
    rw [topValSet_mem]
    constructor
    · rintro ⟨-, h2⟩
      exact h2
    · intro h2
      exact ⟨List.mem_map.mpr ⟨r, hmem, rfl⟩, h2⟩
  · intro r2 _ hv
    exact inTopAll_congr (fun c _ => List.Perm.refl _) k hv

/-- Witness for claim C7 at a concrete collection with a boundary tie:
rows valued 10, 9, 9, 8 in the first column, k = 2, instantiated at the
first row valued 9. -/
theorem claim7_witness :
    ((annotate_top_set c7rows [HoldCol.mf6] 2).get? 1 = some
      { wrow 9 0 0 0 with top20all :=
          if (inTopAll [HoldCol.mf6] 2 c7rows (wrow 9 0 0 0))
          then "Yes" else "No" }) ∧
    (inTopAll [HoldCol.mf6] 2 c7rows (wrow 9 0 0 0) = true ↔
      ∀ c ∈ [HoldCol.mf6], colVal c (wrow 9 0 0 0) ∈
        topValSet 2 (colVal c) c7rows) ∧
    (∀ c ∈ [HoldCol.mf6], colVal c (wrow 9 0 0 0) ∈
        topValSet 2 (colVal c) c7rows ↔
      countAbove (colVal c (wrow 9 0 0 0)) (colVal c) c7rows < 2) ∧
    (∀ r2 ∈ c7rows, (∀ c ∈ [HoldCol.mf6],
        colVal c r2 = colVal c (wrow 9 0 0 0)) →
      inTopAll [HoldCol.mf6] 2 c7rows r2 =
        inTopAll [HoldCol.mf6] 2 c7rows (wrow 9 0 0 0)) :=
  claim7_top_value_set c7rows [HoldCol.mf6] 2 1 (wrow 9 0 0 0) rfl

/-- Claim C8: the ranker removes no row, reorders no row, and changes no
field other than the flag column, which it sets to Yes or No. -/
theorem claim8_frame (rows : List HRow) (cols : List HoldCol) (k : Nat) :
    (annotate_top_set rows cols k).map rowCore = rows.map rowCore ∧
    (annotate_top_set rows cols k).length = rows.length ∧
    ∀ row2 ∈ annotate_top_set rows cols k,
      row2.top20all = "Yes" ∨ row2.top20all = "No" := by
  refine ⟨?_, by rw [annotate_eq_map, List.length_map], ?_⟩
  · rw [annotate_eq_map, List.map_map]
    exact List.map_congr_left (fun r _ => rfl)
  · intro row2 hrow2
    rw [annotate_eq_map] at hrow2
    rcases List.mem_map.mp hrow2 with ⟨r, -, rfl⟩
    by_cases h : inTopAll cols k rows r = true
    · left
      simp [h]
    · right
      simp [h]

/-- Witness for claim C8 at a concrete collection. -/
theorem claim8_witness :
    (annotate_top_set c8rows [HoldCol.mf6, HoldCol.mf3] 1).map rowCore =
      c8rows.map rowCore ∧
    (annotate_top_set c8rows [HoldCol.mf6, HoldCol.mf3] 1).length =
      c8rows.length ∧
    ∀ row2 ∈ annotate_top_set c8rows [HoldCol.mf6, HoldCol.mf3] 1,
      row2.top20all = "Yes" ∨ row2.top20all = "No" :=
  claim8_frame c8rows [HoldCol.mf6, HoldCol.mf3] 1

/-- Claim C9: the ranker is idempotent — annotating an already annotated
collection with the same columns and k reproduces it exactly, flags
included. -/
theorem claim9_idempotent (rows : List HRow) (cols : List HoldCol)
    (k : Nat) :
    annotate_top_set (annotate_top_set rows cols k) cols k =
      annotate_top_set rows cols k := by
  conv_lhs => rw [annotate_eq_map (annotate_top_set rows cols k) cols k]
  conv_rhs => rw [← List.map_id (annotate_top_set rows cols k)]
  apply List.map_congr_left
  intro a ha
  rw [annotate_eq_map rows cols k] at ha
  rcases List.mem_map.mp ha with ⟨r, -, rfl⟩
  have hflag : inTopAll cols k (annotate_top_set rows cols k)
      { r with top20all :=
          if inTopAll cols k rows r then "Yes" else "No" } =
      inTopAll cols k rows r :=
    inTopAll_congr
      (fun c _ => by rw [map_colVal_annotate]) k
      (fun c _ => colVal_set c r _)
  rw [hflag]
  rfl

/-- Claim C10: permuting the row collection changes no row's flag — the
flag predicate is invariant under permutation, and the flag emitted at
any position holding a given row equals the flag emitted for that row at
its position in the permuted run. -/
theorem claim10_order_invariant (rows rows2 : List HRow)
    (hp : List.Perm rows rows2) (cols : List HoldCol) (k : Nat) :
    (∀ r, inTopAll cols k rows r = inTopAll cols k rows2 r) ∧
    (∀ i j r, rows.get? i = some r → rows2.get? j = some r →
      ∃ ra rb, (annotate_top_set rows cols k).get? i = some ra ∧
        (annotate_top_set rows2 cols k).get? j = some rb ∧
        ra.top20all = rb.top20all) := by
  have hflag : ∀ r, inTopAll cols k rows r = inTopAll cols k rows2 r :=
    fun r => inTopAll_congr (fun c _ => hp.map (colVal c)) k (fun c _ => rfl)
  refine ⟨hflag, ?_⟩
  intro i j r hi hj
  refine ⟨{ r with top20all :=
      (if inTopAll cols k rows r then "Yes" else "No") },
    { r with top20all :=
      (if inTopAll cols k rows2 r then "Yes" else "No") }, ?_, ?_, ?_⟩
  · rw [annotate_eq_map, List.get?_map, hi]
    rfl
  · rw [annotate_eq_map, List.get?_map, hj]
    rfl
  · rw [hflag r]

/-- Witness for claim C10 at a concrete two-row collection and its
transposition. -/
theorem claim10_witness :
    (∀ r, inTopAll [HoldCol.mf6] 1 [c10rowA, c10rowB] r =
      inTopAll [HoldCol.mf6] 1 [c10rowB, c10rowA] r) ∧
    (∀ i j r, [c10rowA, c10rowB].get? i = some r →
      [c10rowB, c10rowA].get? j = some r →
      ∃ ra rb,
        (annotate_top_set [c10rowA, c10rowB] [HoldCol.mf6] 1).get? i =
          some ra ∧
        (annotate_top_set [c10rowB, c10rowA] [HoldCol.mf6] 1).get? j =
          some rb ∧
        ra.top20all = rb.top20all) :=
  claim10_order_invariant [c10rowA, c10rowB] [c10rowB, c10rowA]
    (List.Perm.swap c10rowB c10rowA []) [HoldCol.mf6] 1

end Tickertape
